import Mathlib

/-
Shallow embedding of nuitka/codegen/VariableCodes.py, the low-level
variable code generation of the Nuitka compiler.

Modelling conventions:
  * A Python object identity comparison on scope owners (the source uses
    the `is` operator) is modelled through an `id : Nat` field on `Owner`.
  * External collaborators (the `Utils`, `ConstantCodes`, `ErrorCodes` and
    `CodeTemplates` modules, and the generation context services) are
    modelled at their interface, as the specification directs: templates
    become an opaque enumeration, the error-exit emitters become structured
    emitted items, the constant pool becomes a deterministic function of the
    constant, and non-ASCII escaping becomes the identity (all inputs in
    scope here are plain ASCII names).
  * The mutable generation context is threaded explicitly: each generator
    returns the list of emitted items together with the updated context,
    and `none` models the `assert False` contract violation on an
    unexpected variable kind.
-/

namespace VariableCodes

/-- The single-quote character used by the generated error messages. -/
def sq : String := String.singleton (Char.ofNat 39)

/-- Variable kinds, a closed enumeration of the kind predicates the source
dispatches on (`isModuleVariable`, `isMaybeLocalVariable`,
`isLocalVariable`, `isParameterVariable`, `isTempVariable`).  In the source
a parameter variable is also a local variable; the derived predicates below
encode that. -/
inductive VarKind where
  | ModuleGlobal
  | MaybeLocal
  | Local
  | Parameter
  | Temporary
  deriving DecidableEq, Repr

/-- A scope owner (module / function / generator body).  `id` models Python
object identity; the remaining fields model the owner predicates the source
consults (`isPythonModule`, `needsCreation`, `isGenerator`). -/
structure Owner where
  id : Nat
  isPythonModule : Bool
  needsCreation : Bool
  isGenerator : Bool
  deriving DecidableEq, Repr

/-- A variable as consumed by this subsystem: name, kind, declaring owner,
and the attribute flags the source queries. -/
structure Variable where
  name : String
  kind : VarKind
  owner : Owner
  isSharedTechnically : Bool
  hasDelIndicator : Bool
  isTempVariableReference : Bool
  deriving DecidableEq, Repr

def Variable.isModuleVariable (v : Variable) : Bool :=
  v.kind == VarKind.ModuleGlobal

def Variable.isMaybeLocalVariable (v : Variable) : Bool :=
  v.kind == VarKind.MaybeLocal

/-- In the source, parameter variables are a subclass of local variables. -/
def Variable.isLocalVariable (v : Variable) : Bool :=
  v.kind == VarKind.Local || v.kind == VarKind.Parameter

def Variable.isParameterVariable (v : Variable) : Bool :=
  v.kind == VarKind.Parameter

def Variable.isTempVariable (v : Variable) : Bool :=
  v.kind == VarKind.Temporary

def Variable.getHasDelIndicator (v : Variable) : Bool :=
  v.hasDelIndicator

def Variable.getOwner (v : Variable) : Owner :=
  v.owner

/-- The mutable generation context, threaded explicitly.  `cleanupSet` is
the set of temporary names owning a live reference (a Python set of
strings, modelled as a duplicate-free list in all uses);
`needsExceptionVariables` is the needs-exception-state flag; `resCounter`
backs the fresh result-name services. -/
structure Context where
  owner : Owner
  moduleCodeName : String
  cleanupSet : List String
  needsExceptionVariables : Bool
  resCounter : Nat
  deriving DecidableEq, Repr

def Context.getOwner (c : Context) : Owner :=
  c.owner

def Context.isPythonModule (c : Context) : Bool :=
  c.owner.isPythonModule

def Context.getFunction (c : Context) : Owner :=
  c.owner

def Context.getModuleCodeName (c : Context) : String :=
  c.moduleCodeName

def Context.needsCleanup (c : Context) (tmp_name : String) : Bool :=
  c.cleanupSet.contains tmp_name

/-- Set removal from the cleanup set (removes every occurrence, which on a
duplicate-free list is exactly Python set discard). -/
def Context.removeCleanupTempName (c : Context) (tmp_name : String) : Context :=
  { c with cleanupSet := c.cleanupSet.filter (fun x => x != tmp_name) }

def Context.markAsNeedsExceptionVariables (c : Context) : Context :=
  { c with needsExceptionVariables := true }

/-- Fresh int-result name service of the context (external collaborator,
modelled deterministically from the counter). -/
def Context.getIntResName (c : Context) : String × Context :=
  ("res_int_" ++ toString c.resCounter, { c with resCounter := c.resCounter + 1 })

/-- Fresh bool-result name service of the context (external collaborator,
modelled deterministically from the counter). -/
def Context.getBoolResName (c : Context) : String × Context :=
  ("res_bool_" ++ toString c.resCounter, { c with resCounter := c.resCounter + 1 })

/-- Utils.encodeNonAscii, an external collaborator escaping non-ASCII
characters into safe identifier text; modelled as the identity, which is
exact on ASCII names. -/
def encodeNonAscii (s : String) : String :=
  s

/-- ConstantCodes.getConstantCode, the external constant-pool collaborator;
modelled as a deterministic rendering of the interned constant. -/
def getConstantCode (_context : Context) (constant : String) : String :=
  "const_str_" ++ constant

/-- The opaque template bank (CodeTemplates), one constructor per template
name this file selects. -/
inductive Template where
  | template_read_mvar_unclear
  | template_read_maybe_local_unclear
  | template_read_shared_unclear
  | template_read_shared_known
  | template_read_local
  | template_write_shared_unclear_ref0
  | template_write_shared_unclear_ref1
  | template_write_local_unclear_ref0
  | template_write_local_unclear_ref1
  | template_del_global_unclear
  | template_del_shared_tolerant
  | template_del_local_tolerant
  | template_del_shared_intolerant
  | template_del_local_intolerant
  deriving DecidableEq, Repr

/-- One emitted code unit: each constructor records one `emit(...)` call of
the source with its template and substitution arguments, or one call into
the external error-exit emitters of ErrorCodes. -/
inductive EmitItem where
  | updateStringDict (ref_count : Nat) (module_identifier const_code tmp_name : String)
  | writeCode (t : Template) (identifier tmp_name : String)
  | readModuleVar (module_identifier tmp_name var_name : String)
  | readMaybeLocal (locals_dict module_identifier tmp_name var_name : String)
  | readCode (t : Template) (tmp_name identifier : String)
  | delGlobal (module_identifier res_name var_name : String)
  | delTolerantCode (t : Template) (identifier : String)
  | delIntolerantCode (t : Template) (identifier res_name : String)
  | errorExit (check_name exception message : String)
  | errorExitBool (condition exception message : String)
  | assertNotFalse (res_name : String)
  deriving DecidableEq, Repr

/-- ErrorCodes.getErrorFormatExitCode, external guard emitter: emits the
conditional raise for a failed value check. -/
def getErrorFormatExitCode (check_name exception message : String) : EmitItem :=
  EmitItem.errorExit check_name exception message

/-- ErrorCodes.getErrorFormatExitBoolCode, external guard emitter: emits
the conditional raise for a failed boolean condition. -/
def getErrorFormatExitBoolCode (condition exception message : String) : EmitItem :=
  EmitItem.errorExitBool condition exception message

/-- True on the two guard-emitting items produced by the ErrorCodes
collaborator. -/
def EmitItem.isGuard : EmitItem → Bool
  | EmitItem.errorExit _ _ _ => true
  | EmitItem.errorExitBool _ _ _ => true
  | _ => false

/-- Whether a generator result emitted any guard item. -/
def emitsGuard (r : Option (List EmitItem × Context)) : Bool :=
  match r with
  | some p => p.1.any EmitItem.isGuard
  | none => false

/-- The reference-count disposition an emitted write item encodes: the
explicit count of UPDATE_STRING_DICT, or the count the selected write
template consumes (the ref0 templates are selected exactly when
`ref_count` is 1 in the source, the ref1 templates when it is 0). -/
def EmitItem.writeRefCount : EmitItem → Option Nat
  | EmitItem.updateStringDict rc _ _ _ => some rc
  | EmitItem.writeCode t _ _ =>
    match t with
    | Template.template_write_shared_unclear_ref0 => some 1
    | Template.template_write_local_unclear_ref0 => some 1
    | Template.template_write_shared_unclear_ref1 => some 0
    | Template.template_write_local_unclear_ref1 => some 0
    | _ => none
  | _ => none

/-- The generated error messages (source string literals, with the quote
character factored out). -/
def msg_local_unbound (name : String) : String :=
  "local variable " ++ sq ++ name ++ sq ++ " referenced before assignment"

def msg_free_unbound (name : String) : String :=
  "free variable " ++ sq ++ name ++ sq ++ " referenced before assignment in enclosing scope"

def msg_name_not_defined (name : String) : String :=
  "name " ++ sq ++ name ++ sq ++ " is not defined"

def msg_global_name_not_defined (name : String) : String :=
  "global " ++ msg_name_not_defined name

/-- _getContextAccess: the access-path text from the current generation
point to a variable slot, varying with closure creation and generator
status. -/
def _getContextAccess (context : Context) (force_closure : Bool) : String :=
  if context.isPythonModule then
    ""
  else
    let function := context.getFunction
    if function.needsCreation then
      if function.isGenerator then
        if force_closure then
          "_python_context->common_context->"
        else
          "_python_context->"
      else
        if force_closure then
          "_python_context->"
        else
          ""
    else
      if function.isGenerator then
        "_python_context->"
      else
        ""

/-- getVariableCodeName: the canonical storage identifier of a variable,
closure_ when referenced as a closure member, else keyed by kind. -/
def getVariableCodeName (in_context : Bool) (v : Variable) : String :=
  if in_context then
    "closure_" ++ encodeNonAscii v.name
  else if v.isParameterVariable then
    "par_" ++ encodeNonAscii v.name
  else if v.isTempVariable then
    "tmp_" ++ encodeNonAscii v.name
  else
    "var_" ++ encodeNonAscii v.name

/-- getVariableCode: the full storage access expression, context access
path prefixed onto the storage identifier.  Owner comparisons are the
identity comparisons of the source. -/
def getVariableCode (context : Context) (v : Variable) : String :=
  let from_context :=
    _getContextAccess context (v.getOwner.id != context.getOwner.id)
  from_context ++
    getVariableCodeName
      ((context.getOwner.id != v.getOwner.id) ||
        (!context.getOwner.isPythonModule && context.getOwner.isGenerator))
      v

/-- getVariableAssignmentCode: emits the store of `tmp_name` into the
storage of `v`, moving the live reference when the context owns one.
Returns the emitted items and the updated context; `none` models the
`assert False` on an unhandled kind. -/
def getVariableAssignmentCode (context : Context) (v : Variable) (tmp_name : String) :
    Option (List EmitItem × Context) :=
  let ref_count : Nat := if context.needsCleanup tmp_name then 1 else 0
  if v.isModuleVariable then
    let item := EmitItem.updateStringDict ref_count context.getModuleCodeName
      (getConstantCode context v.name) tmp_name
    let context := if ref_count != 0 then context.removeCleanupTempName tmp_name else context
    some ([item], context)
  else if v.isLocalVariable then
    let template :=
      if v.isSharedTechnically then
        if ref_count != 0 then
          Template.template_write_shared_unclear_ref0
        else
          Template.template_write_shared_unclear_ref1
      else
        if ref_count != 0 then
          Template.template_write_local_unclear_ref0
        else
          Template.template_write_local_unclear_ref1
    let item := EmitItem.writeCode template (getVariableCode context v) tmp_name
    let context := if ref_count != 0 then context.removeCleanupTempName tmp_name else context
    some ([item], context)
  else if v.isTempVariable then
    let template :=
      if v.isSharedTechnically then
        if ref_count != 0 then
          Template.template_write_shared_unclear_ref0
        else
          Template.template_write_shared_unclear_ref1
      else
        if ref_count != 0 then
          Template.template_write_local_unclear_ref0
        else
          Template.template_write_local_unclear_ref1
    let item := EmitItem.writeCode template (getVariableCode context v) tmp_name
    let context := if ref_count != 0 then context.removeCleanupTempName tmp_name else context
    some ([item], context)
  else
    none

/-- getVariableAccessCode: emits the load of `v` into `to_name` plus the
guard matching the kind.  `python_version` models the Utils.python_version
global (the targeted version, 340 meaning 3.4).  In the local-variable
branch the source computes `needs_check` per sub-case, then unconditionally
overrides it to True and marks the context as needing exception variables
(a conservative workaround flagged by a TODO comment pending
definite-assignment analysis); the override is what is modelled, the dead
per-sub-case value is dropped. -/
def getVariableAccessCode (python_version : Nat) (to_name : String) (v : Variable)
    (context : Context) : Option (List EmitItem × Context) :=
  if v.isModuleVariable then
    let needs_check := true
    let load := EmitItem.readModuleVar context.getModuleCodeName to_name
      (getConstantCode context v.name)
    let guards :=
      if needs_check then
        let error_message :=
          if python_version < 340 && !context.isPythonModule then
            msg_global_name_not_defined v.name
          else
            msg_name_not_defined v.name
        [getErrorFormatExitCode to_name "PyExc_NameError" error_message]
      else
        []
    some (load :: guards, context)
  else if v.isMaybeLocalVariable then
    let needs_check := true
    let load := EmitItem.readMaybeLocal "locals_dict" context.getModuleCodeName to_name
      (getConstantCode context v.name)
    let guards :=
      if needs_check then
        [getErrorFormatExitCode to_name "PyExc_NameError" (msg_name_not_defined v.name)]
      else
        []
    some (load :: guards, context)
  else if v.isLocalVariable then
    let template :=
      if v.isSharedTechnically then
        if v.isParameterVariable && !v.getHasDelIndicator then
          Template.template_read_shared_unclear
        else
          Template.template_read_shared_known
      else
        Template.template_read_local
    let context := context.markAsNeedsExceptionVariables
    let needs_check := true
    let load := EmitItem.readCode template to_name (getVariableCode context v)
    let guards :=
      if needs_check then
        [getErrorFormatExitCode to_name "PyExc_UnboundLocalError" (msg_local_unbound v.name)]
      else
        []
    some (load :: guards, context)
  else if v.isTempVariable then
    if v.isSharedTechnically then
      let template := Template.template_read_shared_unclear
      let needs_check := true
      let load := EmitItem.readCode template to_name (getVariableCode context v)
      let needs_check := if v.isTempVariableReference then false else needs_check
      let guards :=
        if needs_check then
          [getErrorFormatExitCode to_name "PyExc_UnboundLocalError" (msg_free_unbound v.name)]
        else
          []
      some (load :: guards, context)
    else
      let template := Template.template_read_local
      let needs_check :=
        if v.isParameterVariable && !v.getHasDelIndicator then false else true
      let load := EmitItem.readCode template to_name (getVariableCode context v)
      let needs_check := if v.isTempVariable then false else needs_check
      let guards :=
        if needs_check then
          [getErrorFormatExitCode to_name "PyExc_UnboundLocalError" (msg_local_unbound v.name)]
        else
          []
      some (load :: guards, context)
  else
    none

/-- getVariableDelCode: emits the unbinding of `v`, tolerant or intolerant,
with the guard (or internal assertion, for temporaries) of the intolerant
mode. -/
def getVariableDelCode (tolerant : Bool) (v : Variable) (context : Context) :
    Option (List EmitItem × Context) :=
  if v.isModuleVariable then
    let check := !tolerant
    let p := context.getIntResName
    let res_name := p.1
    let context := p.2
    let load := EmitItem.delGlobal context.getModuleCodeName res_name
      (getConstantCode context v.name)
    let guards :=
      if check then
        [getErrorFormatExitBoolCode (res_name ++ " == -1") "PyExc_NameError"
          ((if !context.isPythonModule then "global " else "") ++ msg_name_not_defined v.name)]
      else
        []
    some (load :: guards, context)
  else if v.isLocalVariable then
    if tolerant then
      let template :=
        if v.isSharedTechnically then
          Template.template_del_shared_tolerant
        else
          Template.template_del_local_tolerant
      some ([EmitItem.delTolerantCode template (getVariableCode context v)], context)
    else
      let p := context.getBoolResName
      let res_name := p.1
      let context := p.2
      let template :=
        if v.isSharedTechnically then
          Template.template_del_shared_intolerant
        else
          Template.template_del_local_intolerant
      let load := EmitItem.delIntolerantCode template (getVariableCode context v) res_name
      let guard :=
        if v.getOwner.id == context.getOwner.id then
          getErrorFormatExitBoolCode (res_name ++ " == false") "PyExc_UnboundLocalError"
            (msg_local_unbound v.name)
        else
          getErrorFormatExitBoolCode (res_name ++ " == false") "PyExc_NameError"
            (msg_free_unbound v.name)
      some ([load, guard], context)
  else if v.isTempVariable then
    if tolerant then
      let template :=
        if v.isSharedTechnically then
          Template.template_del_shared_tolerant
        else
          Template.template_del_local_tolerant
      some ([EmitItem.delTolerantCode template (getVariableCode context v)], context)
    else
      let p := context.getBoolResName
      let res_name := p.1
      let context := p.2
      let template :=
        if v.isSharedTechnically then
          Template.template_del_shared_intolerant
        else
          Template.template_del_local_intolerant
      let load := EmitItem.delIntolerantCode template (getVariableCode context v) res_name
      some ([load, EmitItem.assertNotFalse res_name], context)
  else
    none

end VariableCodes

namespace VariableCodes

/-- A bare module owner, for concrete instances. -/
def ownerM : Owner :=
  { id := 0, isPythonModule := true, needsCreation := false, isGenerator := false }

/-- A plain function owner, for concrete instances. -/
def ownerF : Owner :=
  { id := 1, isPythonModule := false, needsCreation := false, isGenerator := false }

/-- A second, distinct function owner. -/
def ownerF2 : Owner :=
  { id := 2, isPythonModule := false, needsCreation := false, isGenerator := false }

/-- A generation context whose current owner is the plain function. -/
def ctxF : Context :=
  { owner := ownerF, moduleCodeName := "m", cleanupSet := [],
    needsExceptionVariables := false, resCounter := 0 }

/-- A generation context whose current owner is the bare module. -/
def ctxM : Context :=
  { owner := ownerM, moduleCodeName := "m", cleanupSet := [],
    needsExceptionVariables := false, resCounter := 0 }

/-- A parameter variable of the current function, no deletion indicator,
not shared. -/
def varX : Variable :=
  { name := "x", kind := VarKind.Parameter, owner := ownerF,
    isSharedTechnically := false, hasDelIndicator := false,
    isTempVariableReference := false }

/-- A module-global variable. -/
def varG : Variable :=
  { name := "x", kind := VarKind.ModuleGlobal, owner := ownerM,
    isSharedTechnically := false, hasDelIndicator := false,
    isTempVariableReference := false }

/-- A maybe-local variable. -/
def varMaybe : Variable :=
  { name := "x", kind := VarKind.MaybeLocal, owner := ownerF,
    isSharedTechnically := false, hasDelIndicator := false,
    isTempVariableReference := false }

/-- A shared temporary that is not a temporary reference. -/
def varYShared : Variable :=
  { name := "y", kind := VarKind.Temporary, owner := ownerF,
    isSharedTechnically := true, hasDelIndicator := false,
    isTempVariableReference := false }

/-- A non-shared temporary. -/
def varT : Variable :=
  { name := "t0", kind := VarKind.Temporary, owner := ownerF,
    isSharedTechnically := false, hasDelIndicator := false,
    isTempVariableReference := false }

/-- A plain local variable of the current function. -/
def varZ : Variable :=
  { name := "z", kind := VarKind.Local, owner := ownerF,
    isSharedTechnically := false, hasDelIndicator := false,
    isTempVariableReference := false }

/-- The same local variable, but declared by the other function. -/
def varZfree : Variable :=
  { name := "z", kind := VarKind.Local, owner := ownerF2,
    isSharedTechnically := false, hasDelIndicator := false,
    isTempVariableReference := false }

/-- A local variable declared by the other function (closure capture). -/
def varLclosure : Variable :=
  { name := "w", kind := VarKind.Local, owner := ownerF2,
    isSharedTechnically := false, hasDelIndicator := false,
    isTempVariableReference := false }

/-- A temporary declared by the other function, same name. -/
def varTclosure : Variable :=
  { name := "w", kind := VarKind.Temporary, owner := ownerF2,
    isSharedTechnically := false, hasDelIndicator := false,
    isTempVariableReference := false }

/-- Nothing survives filtering away a string from a list of strings. -/
theorem not_mem_filter_bne (l : List String) (t : String) :
    t ∉ l.filter (fun x => x != t) := by
  intro h
  have h2 := List.mem_filter.mp h
  simp at h2

end VariableCodes

namespace VariableCodes

/-- Marking the context as needing exception variables does not change the
storage access expression (it only reads the owner). -/
theorem getVariableCode_mark (context : Context) (v : Variable) :
    getVariableCode context.markAsNeedsExceptionVariables v = getVariableCode context v :=
  rfl

/-- Bumping the result-name counter does not change the storage access
expression either. -/
theorem getVariableCode_resCounter (context : Context) (n : Nat) (v : Variable) :
    getVariableCode { context with resCounter := n } v = getVariableCode context v :=
  rfl

/-- Claim C1, counterexample: at the concrete parameter variable `x` of the
current function (kind Parameter, not shared, no deletion indicator) the
read generator does emit an UnboundLocalError guard and does set the
needs-exception-state flag, contradicting the claimed unguarded direct
load. -/
theorem C1_counterexample :
    varX.kind = VarKind.Parameter ∧
    varX.isSharedTechnically = false ∧
    varX.hasDelIndicator = false ∧
    ctxF.needsExceptionVariables = false ∧
    emitsGuard (getVariableAccessCode 340 "tmp_v" varX ctxF) = true ∧
    Option.map (fun p => p.2.needsExceptionVariables)
      (getVariableAccessCode 340 "tmp_v" varX ctxF) = some true := by
  refine ⟨rfl, rfl, rfl, rfl, rfl, rfl⟩

/-- Claim C1 (amended): for every parameter variable with no deletion
indicator and not shared-technically, the read generator computes the
unguarded case by the kind rule but the conservative override emits the
UnboundLocalError guard anyway (message: local variable referenced before
assignment) and marks the context as needing exception variables. -/
theorem C1_param_read_guarded_anyway (python_version : Nat) (to_name : String)
    (v : Variable) (context : Context)
    (hk : v.kind = VarKind.Parameter)
    (hs : v.isSharedTechnically = false)
    (hd : v.hasDelIndicator = false) :
    getVariableAccessCode python_version to_name v context =
      some ([EmitItem.readCode Template.template_read_local to_name (getVariableCode context v),
             EmitItem.errorExit to_name "PyExc_UnboundLocalError" (msg_local_unbound v.name)],
            context.markAsNeedsExceptionVariables) ∧
    (context.markAsNeedsExceptionVariables).needsExceptionVariables = true := by
  obtain ⟨name, kind, ow, sh, del, tref⟩ := v
  simp only at hk hs hd
  subst hk hs hd
  constructor
  · simp [getVariableAccessCode, Variable.isModuleVariable, Variable.isMaybeLocalVariable,
      Variable.isLocalVariable, Variable.isParameterVariable, Variable.isTempVariable,
      Variable.getHasDelIndicator, getErrorFormatExitCode, getVariableCode_mark]
  · rfl

/-- Claim C1 witness: the amended theorem at the concrete parameter `x`. -/
theorem C1_witness :
    getVariableAccessCode 340 "tmp_v" varX ctxF =
      some ([EmitItem.readCode Template.template_read_local "tmp_v" (getVariableCode ctxF varX),
             EmitItem.errorExit "tmp_v" "PyExc_UnboundLocalError" (msg_local_unbound varX.name)],
            ctxF.markAsNeedsExceptionVariables) ∧
    (ctxF.markAsNeedsExceptionVariables).needsExceptionVariables = true :=
  C1_param_read_guarded_anyway 340 "tmp_v" varX ctxF rfl rfl rfl

/-- Claim C2: for every write of a module-global, local, parameter or
temporary variable, the reference count encoded in the single emitted item
is 1 exactly when the cleanup set holds the source temporary at entry, else
0; after the call the source temporary is gone from the cleanup set in the
first case, and the cleanup set is unchanged in the second. -/
theorem C2_write_refcount (context : Context) (v : Variable) (tmp_name : String)
    (hk : v.kind ≠ VarKind.MaybeLocal) :
    ∃ item context2,
      getVariableAssignmentCode context v tmp_name = some ([item], context2) ∧
      EmitItem.writeRefCount item =
        some (if context.needsCleanup tmp_name then 1 else 0) ∧
      (context.needsCleanup tmp_name = true → tmp_name ∉ context2.cleanupSet) ∧
      (context.needsCleanup tmp_name = false → context2.cleanupSet = context.cleanupSet) := by
  obtain ⟨name, kind, ow, sh, del, tref⟩ := v
  by_cases hc : context.needsCleanup tmp_name = true
  · cases kind <;>
      first
      | exact absurd rfl hk
      | cases sh <;>
          · simp_all [getVariableAssignmentCode, Variable.isModuleVariable,
              Variable.isMaybeLocalVariable, Variable.isLocalVariable,
              Variable.isParameterVariable, Variable.isTempVariable,
              EmitItem.writeRefCount]
            exact ⟨_, _, ⟨rfl, rfl⟩, rfl,
              by simpa [Context.removeCleanupTempName] using
                not_mem_filter_bne context.cleanupSet tmp_name⟩
  · cases kind <;>
      first
      | exact absurd rfl hk
      | cases sh <;>
          · simp_all [getVariableAssignmentCode, Variable.isModuleVariable,
              Variable.isMaybeLocalVariable, Variable.isLocalVariable,
              Variable.isParameterVariable, Variable.isTempVariable,
              EmitItem.writeRefCount]
            exact ⟨_, _, ⟨rfl, rfl⟩, rfl, rfl⟩

/-- Claim C2 witness: a concrete local-variable write whose source
temporary owns a live reference. -/
theorem C2_witness :
    ∃ item context2,
      getVariableAssignmentCode { ctxF with cleanupSet := ["t"] } varZ "t" =
        some ([item], context2) ∧
      EmitItem.writeRefCount item =
        some (if Context.needsCleanup { ctxF with cleanupSet := ["t"] } "t" then 1 else 0) ∧
      (Context.needsCleanup { ctxF with cleanupSet := ["t"] } "t" = true →
        "t" ∉ context2.cleanupSet) ∧
      (Context.needsCleanup { ctxF with cleanupSet := ["t"] } "t" = false →
        context2.cleanupSet = Context.cleanupSet { ctxF with cleanupSet := ["t"] }) :=
  C2_write_refcount { ctxF with cleanupSet := ["t"] } varZ "t" (by decide)

/-- Claim C3: for every shared-technically temporary, the read generator
emits the shared-cell load followed by an UnboundLocalError guard whose
message is the free-variable wording, unless the temporary is a temporary
reference, in which case only the load is emitted; the context is left
unchanged. -/
theorem C3_read_temp_shared (python_version : Nat) (to_name : String)
    (v : Variable) (context : Context)
    (hk : v.kind = VarKind.Temporary)
    (hs : v.isSharedTechnically = true) :
    getVariableAccessCode python_version to_name v context =
      some (EmitItem.readCode Template.template_read_shared_unclear to_name
              (getVariableCode context v) ::
            (if v.isTempVariableReference then []
             else [EmitItem.errorExit to_name "PyExc_UnboundLocalError"
                     (msg_free_unbound v.name)]),
            context) := by
  obtain ⟨name, kind, ow, sh, del, tref⟩ := v
  simp only at hk hs
  subst hk hs
  cases tref <;>
    simp [getVariableAccessCode, Variable.isModuleVariable, Variable.isMaybeLocalVariable,
      Variable.isLocalVariable, Variable.isParameterVariable, Variable.isTempVariable,
      Variable.isTempVariableReference, getErrorFormatExitCode]

/-- Claim C3 witness: the concrete shared temporary `y` with the guard, and
its aliased counterpart without. -/
theorem C3_witness :
    getVariableAccessCode 340 "tmp_v" varYShared ctxF =
      some (EmitItem.readCode Template.template_read_shared_unclear "tmp_v"
              (getVariableCode ctxF varYShared) ::
            (if varYShared.isTempVariableReference then []
             else [EmitItem.errorExit "tmp_v" "PyExc_UnboundLocalError"
                     (msg_free_unbound varYShared.name)]),
            ctxF) :=
  C3_read_temp_shared 340 "tmp_v" varYShared ctxF rfl rfl

/-- Claim C4: for every temporary that is not shared-technically, whatever
its temporary-reference flag, the read generator emits exactly the direct
load, no guard, and leaves the context unchanged. -/
theorem C4_read_temp_unshared (python_version : Nat) (to_name : String)
    (v : Variable) (context : Context)
    (hk : v.kind = VarKind.Temporary)
    (hs : v.isSharedTechnically = false) :
    getVariableAccessCode python_version to_name v context =
      some ([EmitItem.readCode Template.template_read_local to_name
               (getVariableCode context v)], context) ∧
    emitsGuard (getVariableAccessCode python_version to_name v context) = false := by
  obtain ⟨name, kind, ow, sh, del, tref⟩ := v
  simp only at hk hs
  subst hk hs
  refine ⟨?_, ?_⟩ <;>
    cases del <;>
      simp [getVariableAccessCode, Variable.isModuleVariable, Variable.isMaybeLocalVariable,
        Variable.isLocalVariable, Variable.isParameterVariable, Variable.isTempVariable,
        Variable.getHasDelIndicator, emitsGuard, EmitItem.isGuard]

/-- Claim C4 witness: the concrete non-shared temporary. -/
theorem C4_witness :
    getVariableAccessCode 340 "tmp_v" varT ctxF =
      some ([EmitItem.readCode Template.template_read_local "tmp_v"
               (getVariableCode ctxF varT)], ctxF) ∧
    emitsGuard (getVariableAccessCode 340 "tmp_v" varT ctxF) = false :=
  C4_read_temp_unshared 340 "tmp_v" varT ctxF rfl rfl

end VariableCodes

namespace VariableCodes

/-- The storage access expression as the claim words it: an access-path
piece selected from the current owner with forceClosure true iff the
declaring owner differs (empty for a bare module owner; for an owner
needing creation a generator selects common-context vs own-context by
forceClosure and a plain function selects closure-object vs empty; for an
owner not needing creation a generator always gets its own context, else
empty), concatenated with an identifier that carries the closure marker iff
the owner differs or the current non-module owner is a generator, else the
parameter / temporary / plain marker by kind. -/
def claimedVariableCode (context : Context) (v : Variable) : String :=
  let force_closure := v.owner.id != context.owner.id
  let access_path :=
    if context.owner.isPythonModule then
      ""
    else if context.owner.needsCreation then
      if context.owner.isGenerator then
        if force_closure then "_python_context->common_context->" else "_python_context->"
      else
        if force_closure then "_python_context->" else ""
    else
      if context.owner.isGenerator then "_python_context->" else ""
  let as_closure :=
    (v.owner.id != context.owner.id) ||
      (!context.owner.isPythonModule && context.owner.isGenerator)
  let ident :=
    if as_closure then
      "closure_" ++ v.name
    else if v.kind == VarKind.Parameter then
      "par_" ++ v.name
    else if v.kind == VarKind.Temporary then
      "tmp_" ++ v.name
    else
      "var_" ++ v.name
  access_path ++ ident

/-- Claim C5: the storage access expression the source produces agrees with
the claimed access-path / identifier decomposition on every context and
variable. -/
theorem C5_variable_code_agrees (context : Context) (v : Variable) :
    getVariableCode context v = claimedVariableCode context v := by
  by_cases h : v.owner.id = context.owner.id
  · simp [getVariableCode, claimedVariableCode, _getContextAccess, getVariableCodeName,
      Context.isPythonModule, Context.getFunction, Context.getOwner, Variable.getOwner,
      Variable.isParameterVariable, Variable.isTempVariable, encodeNonAscii, h, bne]
  · have h2 : ¬ context.owner.id = v.owner.id := fun e => h e.symm
    simp [getVariableCode, claimedVariableCode, _getContextAccess, getVariableCodeName,
      Context.isPythonModule, Context.getFunction, Context.getOwner, Variable.getOwner,
      Variable.isParameterVariable, Variable.isTempVariable, encodeNonAscii, h, h2, bne]

/-- Claim C6: for every module-global variable, the intolerant delete emits
the namespace delete followed by a NameError guard whose message carries
the global marker exactly when the current owner is not a bare module,
while the tolerant delete emits the namespace delete with no guard. -/
theorem C6_del_global (v : Variable) (context : Context)
    (hk : v.kind = VarKind.ModuleGlobal) :
    getVariableDelCode false v context =
      some ([EmitItem.delGlobal context.moduleCodeName
               ("res_int_" ++ toString context.resCounter)
               (getConstantCode context v.name),
             EmitItem.errorExitBool
               ("res_int_" ++ toString context.resCounter ++ " == -1")
               "PyExc_NameError"
               (if context.isPythonModule then msg_name_not_defined v.name
                else msg_global_name_not_defined v.name)],
            { context with resCounter := context.resCounter + 1 }) ∧
    getVariableDelCode true v context =
      some ([EmitItem.delGlobal context.moduleCodeName
               ("res_int_" ++ toString context.resCounter)
               (getConstantCode context v.name)],
            { context with resCounter := context.resCounter + 1 }) ∧
    emitsGuard (getVariableDelCode true v context) = false := by
  obtain ⟨name, kind, ow, sh, del, tref⟩ := v
  simp only at hk
  subst hk
  refine ⟨?_, ?_, ?_⟩ <;>
    by_cases hm : context.isPythonModule = true <;>
      simp_all [getVariableDelCode, Variable.isModuleVariable, Variable.isMaybeLocalVariable,
        Variable.isLocalVariable, Variable.isParameterVariable, Variable.isTempVariable,
        Context.getIntResName, Context.getModuleCodeName, getErrorFormatExitBoolCode,
        msg_global_name_not_defined, emitsGuard, EmitItem.isGuard, getConstantCode,
        Context.isPythonModule]

/-- Claim C6 witness: the concrete module-global variable deleted from a
function context. -/
theorem C6_witness :
    getVariableDelCode false varG ctxF =
      some ([EmitItem.delGlobal ctxF.moduleCodeName
               ("res_int_" ++ toString ctxF.resCounter)
               (getConstantCode ctxF varG.name),
             EmitItem.errorExitBool
               ("res_int_" ++ toString ctxF.resCounter ++ " == -1")
               "PyExc_NameError"
               (if ctxF.isPythonModule then msg_name_not_defined varG.name
                else msg_global_name_not_defined varG.name)],
            { ctxF with resCounter := ctxF.resCounter + 1 }) ∧
    getVariableDelCode true varG ctxF =
      some ([EmitItem.delGlobal ctxF.moduleCodeName
               ("res_int_" ++ toString ctxF.resCounter)
               (getConstantCode ctxF varG.name)],
            { ctxF with resCounter := ctxF.resCounter + 1 }) ∧
    emitsGuard (getVariableDelCode true varG ctxF) = false :=
  C6_del_global varG ctxF rfl

/-- Claim C7: for every local (or parameter) variable, the intolerant
delete emits the delete template for its sharing mode followed by a guard
that raises UnboundLocalError with the local wording when the declaring
owner is the current owner, and NameError with the free-variable wording
otherwise. -/
theorem C7_del_local_intolerant (v : Variable) (context : Context)
    (hk : v.isLocalVariable = true) :
    getVariableDelCode false v context =
      some ([EmitItem.delIntolerantCode
               (if v.isSharedTechnically then Template.template_del_shared_intolerant
                else Template.template_del_local_intolerant)
               (getVariableCode context v)
               ("res_bool_" ++ toString context.resCounter),
             if v.owner.id == context.owner.id then
               EmitItem.errorExitBool
                 ("res_bool_" ++ toString context.resCounter ++ " == false")
                 "PyExc_UnboundLocalError" (msg_local_unbound v.name)
             else
               EmitItem.errorExitBool
                 ("res_bool_" ++ toString context.resCounter ++ " == false")
                 "PyExc_NameError" (msg_free_unbound v.name)],
            { context with resCounter := context.resCounter + 1 }) := by
  obtain ⟨name, kind, ow, sh, del, tref⟩ := v
  by_cases ho : ow.id = context.owner.id <;>
    cases sh <;>
      cases kind <;>
        simp_all [getVariableDelCode, Variable.isModuleVariable, Variable.isMaybeLocalVariable,
          Variable.isLocalVariable, Variable.isParameterVariable, Variable.isTempVariable,
          Variable.getOwner, Context.getOwner, Context.getBoolResName,
          getErrorFormatExitBoolCode, getVariableCode_resCounter]

/-- Claim C7 witness: the concrete local `z` owned by the current function
(UnboundLocalError case) and its counterpart owned by another function
(NameError case). -/
theorem C7_witness :
    getVariableDelCode false varZ ctxF =
      some ([EmitItem.delIntolerantCode
               (if varZ.isSharedTechnically then Template.template_del_shared_intolerant
                else Template.template_del_local_intolerant)
               (getVariableCode ctxF varZ)
               ("res_bool_" ++ toString ctxF.resCounter),
             if varZ.owner.id == ctxF.owner.id then
               EmitItem.errorExitBool
                 ("res_bool_" ++ toString ctxF.resCounter ++ " == false")
                 "PyExc_UnboundLocalError" (msg_local_unbound varZ.name)
             else
               EmitItem.errorExitBool
                 ("res_bool_" ++ toString ctxF.resCounter ++ " == false")
                 "PyExc_NameError" (msg_free_unbound varZ.name)],
            { ctxF with resCounter := ctxF.resCounter + 1 }) ∧
    getVariableDelCode false varZfree ctxF =
      some ([EmitItem.delIntolerantCode
               (if varZfree.isSharedTechnically then Template.template_del_shared_intolerant
                else Template.template_del_local_intolerant)
               (getVariableCode ctxF varZfree)
               ("res_bool_" ++ toString ctxF.resCounter),
             if varZfree.owner.id == ctxF.owner.id then
               EmitItem.errorExitBool
                 ("res_bool_" ++ toString ctxF.resCounter ++ " == false")
                 "PyExc_UnboundLocalError" (msg_local_unbound varZfree.name)
             else
               EmitItem.errorExitBool
                 ("res_bool_" ++ toString ctxF.resCounter ++ " == false")
                 "PyExc_NameError" (msg_free_unbound varZfree.name)],
            { ctxF with resCounter := ctxF.resCounter + 1 }) :=
  ⟨C7_del_local_intolerant varZ ctxF rfl, C7_del_local_intolerant varZfree ctxF rfl⟩

end VariableCodes

namespace VariableCodes

/-- Claim C8, counterexample: targeting language version 2.7 from a
non-module context, the module-global read guard says the name is not
defined with the global wording, while the maybe-local read guard at the
same input uses the plain wording — the two message selection rules are not
identical, refuting the claim. -/
theorem C8_counterexample :
    getVariableAccessCode 270 "tmp_v" varG ctxF =
      some ([EmitItem.readModuleVar ctxF.moduleCodeName "tmp_v" (getConstantCode ctxF "x"),
             EmitItem.errorExit "tmp_v" "PyExc_NameError" (msg_global_name_not_defined "x")],
            ctxF) ∧
    getVariableAccessCode 270 "tmp_v" varMaybe ctxF =
      some ([EmitItem.readMaybeLocal "locals_dict" ctxF.moduleCodeName "tmp_v"
               (getConstantCode ctxF "x"),
             EmitItem.errorExit "tmp_v" "PyExc_NameError" (msg_name_not_defined "x")],
            ctxF) ∧
    msg_global_name_not_defined "x" ≠ msg_name_not_defined "x" := by
  refine ⟨rfl, rfl, by decide⟩

/-- Claim C8 (amended): every module-global read emits a NameError guard
whose message uses the global wording exactly when the targeted version is
older than 3.4 and the current context is not the top-level module, and the
plain wording otherwise; every maybe-local read emits a NameError guard
whose message is always the plain wording, independent of the targeted
version and of the context. -/
theorem C8_read_global_maybe_guard (python_version : Nat) (to_name : String)
    (v : Variable) (context : Context) :
    (v.kind = VarKind.ModuleGlobal →
      getVariableAccessCode python_version to_name v context =
        some ([EmitItem.readModuleVar context.moduleCodeName to_name
                 (getConstantCode context v.name),
               EmitItem.errorExit to_name "PyExc_NameError"
                 (if python_version < 340 && !context.isPythonModule then
                    msg_global_name_not_defined v.name
                  else
                    msg_name_not_defined v.name)],
              context)) ∧
    (v.kind = VarKind.MaybeLocal →
      getVariableAccessCode python_version to_name v context =
        some ([EmitItem.readMaybeLocal "locals_dict" context.moduleCodeName to_name
                 (getConstantCode context v.name),
               EmitItem.errorExit to_name "PyExc_NameError" (msg_name_not_defined v.name)],
              context)) := by
  obtain ⟨name, kind, ow, sh, del, tref⟩ := v
  constructor <;>
    · intro hk
      simp only at hk
      subst hk
      simp [getVariableAccessCode, Variable.isModuleVariable, Variable.isMaybeLocalVariable,
        Variable.isLocalVariable, Variable.isParameterVariable, Variable.isTempVariable,
        Context.getModuleCodeName, getErrorFormatExitCode]

/-- Claim C8 witness: the amended theorem at the concrete module-global and
maybe-local variables. -/
theorem C8_witness :
    getVariableAccessCode 270 "tmp_v" varG ctxF =
      some ([EmitItem.readModuleVar ctxF.moduleCodeName "tmp_v"
               (getConstantCode ctxF varG.name),
             EmitItem.errorExit "tmp_v" "PyExc_NameError"
               (if 270 < 340 && !ctxF.isPythonModule then
                  msg_global_name_not_defined varG.name
                else
                  msg_name_not_defined varG.name)],
            ctxF) ∧
    getVariableAccessCode 270 "tmp_v" varMaybe ctxF =
      some ([EmitItem.readMaybeLocal "locals_dict" ctxF.moduleCodeName "tmp_v"
               (getConstantCode ctxF varMaybe.name),
             EmitItem.errorExit "tmp_v" "PyExc_NameError"
               (msg_name_not_defined varMaybe.name)],
            ctxF) :=
  ⟨(C8_read_global_maybe_guard 270 "tmp_v" varG ctxF).1 rfl,
   (C8_read_global_maybe_guard 270 "tmp_v" varMaybe ctxF).2 rfl⟩

/-- Claim C9: for every temporary variable, the intolerant delete emits the
delete template for its sharing mode followed by an unconditional
internal-consistency assertion on the boolean result, and emits no guard
item at all. -/
theorem C9_del_temp_assert (v : Variable) (context : Context)
    (hk : v.kind = VarKind.Temporary) :
    getVariableDelCode false v context =
      some ([EmitItem.delIntolerantCode
               (if v.isSharedTechnically then Template.template_del_shared_intolerant
                else Template.template_del_local_intolerant)
               (getVariableCode context v)
               ("res_bool_" ++ toString context.resCounter),
             EmitItem.assertNotFalse ("res_bool_" ++ toString context.resCounter)],
            { context with resCounter := context.resCounter + 1 }) ∧
    emitsGuard (getVariableDelCode false v context) = false := by
  obtain ⟨name, kind, ow, sh, del, tref⟩ := v
  simp only at hk
  subst hk
  refine ⟨?_, ?_⟩ <;>
    cases sh <;>
      simp [getVariableDelCode, Variable.isModuleVariable, Variable.isMaybeLocalVariable,
        Variable.isLocalVariable, Variable.isParameterVariable, Variable.isTempVariable,
        Context.getBoolResName, getVariableCode_resCounter, emitsGuard, EmitItem.isGuard]

/-- Claim C9 witness: the concrete non-shared temporary deleted
intolerantly. -/
theorem C9_witness :
    getVariableDelCode false varT ctxF =
      some ([EmitItem.delIntolerantCode
               (if varT.isSharedTechnically then Template.template_del_shared_intolerant
                else Template.template_del_local_intolerant)
               (getVariableCode ctxF varT)
               ("res_bool_" ++ toString ctxF.resCounter),
             EmitItem.assertNotFalse ("res_bool_" ++ toString ctxF.resCounter)],
            { ctxF with resCounter := ctxF.resCounter + 1 }) ∧
    emitsGuard (getVariableDelCode false varT ctxF) = false :=
  C9_del_temp_assert varT ctxF rfl

/-- Claim C10: the local-variable branch and the temporary-variable branch
of the write generator are equivalent — a local and a temporary with the
same resolved storage identifier and the same technical sharing produce,
for the same context and source temporary (hence the same reference-count
disposition), identical emissions and identical context updates. -/
theorem C10_write_local_temp_equiv (context : Context) (tmp_name : String)
    (v1 v2 : Variable)
    (h1 : v1.kind = VarKind.Local)
    (h2 : v2.kind = VarKind.Temporary)
    (hs : v1.isSharedTechnically = v2.isSharedTechnically)
    (hid : getVariableCode context v1 = getVariableCode context v2) :
    getVariableAssignmentCode context v1 tmp_name =
      getVariableAssignmentCode context v2 tmp_name := by
  obtain ⟨name1, kind1, ow1, sh1, del1, tref1⟩ := v1
  obtain ⟨name2, kind2, ow2, sh2, del2, tref2⟩ := v2
  simp only at h1 h2 hs
  subst h1 h2 hs
  simp_all [getVariableAssignmentCode, Variable.isModuleVariable, Variable.isMaybeLocalVariable,
    Variable.isLocalVariable, Variable.isParameterVariable, Variable.isTempVariable]

/-- Claim C10 witness: a local and a temporary of another function, both
reached as closure captures under the same identifier, written from the
same source temporary. -/
theorem C10_witness :
    getVariableAssignmentCode ctxF varLclosure "t" =
      getVariableAssignmentCode ctxF varTclosure "t" :=
  C10_write_local_temp_equiv ctxF "t" varLclosure varTclosure rfl rfl rfl rfl

end VariableCodes
